import Mathlib

/-!
Shallow embedding of the querymaster batch-execution engine
(`src/querymaster/core.py`) and proofs about its claims.

String primitives are modelled on `List Char` with structural recursion so
that every definition evaluates inside the kernel.  They model the Python
string operations used by `core.py` (`str.strip`, `str.splitlines` on
newline-separated text, `str.replace`, `str.upper`, `str.lower`,
`str.startswith`, `str.endswith`, `pathlib.Path.suffix`).
-/

namespace QueryMaster

/-- Python `str.strip()` whitespace set restricted to the characters that
occur in this repository's inputs (space, tab, newline, carriage return). -/
def isPySpace (c : Char) : Bool :=
  c == ' ' || c == '\t' || c == '\n' || c == '\r'

def dropLeadingSpaces : List Char → List Char
  | [] => []
  | c :: cs => if isPySpace c then dropLeadingSpaces cs else c :: cs

def stripChars (l : List Char) : List Char :=
  dropLeadingSpaces ((dropLeadingSpaces l.reverse).reverse)

/-- Python `str.strip()` (no argument). -/
def pyStrip (s : String) : String := String.mk (stripChars s.data)

/-- Split a character list on a separator character; like Python
`str.split(sep)` for a one-character separator. -/
def splitCharsOn (sep : Char) : List Char → List (List Char)
  | [] => [[]]
  | c :: cs =>
      let r := splitCharsOn sep cs
      if c == sep then [] :: r
      else
        match r with
        | [] => [[c]]
        | h :: t => (c :: h) :: t

/-- Python `str.splitlines()` for text whose line endings are `\n`
(the only endings occurring in this repository): a trailing newline does
not contribute a final empty line. -/
def pySplitlines (s : String) : List String :=
  let parts := (splitCharsOn '\n' s.data).map String.mk
  match parts.getLast? with
  | some "" => parts.dropLast
  | _ => parts

/-- Python `str.startswith(pre)`. -/
def pyStartsWith (s pre : String) : Bool := pre.data.isPrefixOf s.data

/-- Python `str.endswith(suf)`. -/
def pyEndsWith (s suf : String) : Bool := suf.data.isSuffixOf s.data

/-- Python `str.upper()` for the ASCII text of this repository. -/
def pyUpper (s : String) : String := String.mk (s.data.map Char.toUpper)

/-- Python `str.lower()` for the ASCII text of this repository. -/
def pyLower (s : String) : String := String.mk (s.data.map Char.toLower)

/-- Leftmost, non-overlapping replacement of a non-empty pattern, with fuel
bounding the scan; like Python `str.replace` for the non-empty patterns the
code builds (they always have the shape brace-key-brace). -/
def replaceChars (pat rep : List Char) : Nat → List Char → List Char
  | _, [] => []
  | 0, l => l
  | fuel + 1, c :: cs =>
      if pat.isPrefixOf (c :: cs) then
        rep ++ replaceChars pat rep fuel ((c :: cs).drop pat.length)
      else
        c :: replaceChars pat rep fuel cs

/-- Python `str.replace(pat, rep)` (all occurrences, left to right). -/
def pyReplace (s pat rep : String) : String :=
  String.mk (replaceChars pat.data rep.data (s.data.length + 1) s.data)

/-- Python `"\n".join(lines)`. -/
def joinLines (lines : List String) : String :=
  String.mk (List.intercalate ['\n'] (lines.map String.data))

/-- Python `line[:-1]`: drop the final character. -/
def dropLastChar (s : String) : String := String.mk s.data.dropLast

/-- Model of `pathlib.Path(p).name`: the final path component. -/
def pathName (p : String) : String :=
  String.mk ((splitCharsOn '/' p.data).getLastD [])

/-- Index of the last occurrence of a character, like Python `str.rfind`. -/
def lastIdxOf (c : Char) (l : List Char) : Option Nat :=
  (l.foldl
    (fun (acc : Nat × Option Nat) ch =>
      (acc.1 + 1, if ch == c then some acc.1 else acc.2))
    (0, none)).2

/-- Model of `pathlib.Path(p).suffix`: the final `"." ++ ext` of the last path
component when the last dot is neither its first nor its last character,
else the empty string. -/
def pathSuffix (p : String) : String :=
  let nm := (pathName p).data
  match lastIdxOf '.' nm with
  | none => ""
  | some k => if 0 < k ∧ k + 1 < nm.length then String.mk (nm.drop k) else ""

/-- The expression `Path(p).suffix[1:].lower()` as computed at `core.py:387` and 438. -/
def outputFormatOf (p : String) : String :=
  pyLower (String.mk ((pathSuffix p).data.drop 1))

/-! ## StatementSplitter — `QueryMaster._split_sql_statements`, core.py:518-564 -/

structure SplitState where
  statements : List String
  currentStmt : List String
  inBlock : Bool
deriving Repr, DecidableEq

/-- One iteration of the line loop of `_split_sql_statements`. -/
def splitStep (st : SplitState) (rawLine : String) : SplitState :=
  let line := pyStrip rawLine
  if line = "" || pyStartsWith line "--" then st
  else
    let inB := if pyStartsWith (pyUpper line) "BEGIN" then true else st.inBlock
    if inB then
      let cur := st.currentStmt ++ [line]
      if pyEndsWith (pyUpper line) "END;" then
        { statements := st.statements ++ [joinLines cur], currentStmt := [], inBlock := false }
      else
        { statements := st.statements, currentStmt := cur, inBlock := true }
    else
      if pyEndsWith line ";" then
        let cur := st.currentStmt ++ [dropLastChar line]
        { statements := st.statements ++ [joinLines cur], currentStmt := [], inBlock := false }
      else
        { statements := st.statements, currentStmt := st.currentStmt ++ [line], inBlock := false }

/-- Model of `QueryMaster._split_sql_statements` (core.py:518-564). -/
def splitSqlStatements (queryContent : String) : List String :=
  let st := (pySplitlines queryContent).foldl splitStep ⟨[], [], false⟩
  if st.currentStmt.isEmpty then st.statements
  else st.statements ++ [joinLines st.currentStmt]

/-! ## Data model -/

/-- A pandas DataFrame, reduced to its observable shape: column names and
rows of cell values.  `DF.empty` stands for `pd.DataFrame()`. -/
structure DF where
  cols : List String
  rows : List (List String)
deriving Repr, DecidableEq

def DF.empty : DF := ⟨[], []⟩

/-- The exceptions `_execute_single_file` and the statement executors can
raise: `asyncio.TimeoutError` re-raised after exhausted retries, database
errors from a statement, `ValueError` for an unsupported output format,
Python's `UnboundLocalError`, and `FileNotFoundError` from `open`. -/
inductive QMError
  | timeoutErr
  | queryErr (msg : String)
  | valueErr (msg : String)
  | unboundLocal (name : String)
  | fileNotFound (path : String)
deriving Repr, DecidableEq

/-- Observable side effects of a file execution, in order. -/
inductive Effect
  | logInfo (m : String)
  | logWarning (m : String)
  | logError (m : String)
  | readFile (p : String)
  | acquireConn
  | releaseConn
  | execStmt (s : String)
  | saveOutput (p : String) (fmt : String)
deriving Repr, DecidableEq

/-- The slice of a file config consumed by `_execute_single_file`:
`config['query_file']`, optional `config['output_file']`, and
`config.get('params', {})` as an ordered association list (Python dicts
iterate in insertion order). -/
structure FileConfig where
  queryFile : String
  outputFile : Option String
  params : List (String × String)
deriving Repr, DecidableEq

/-- The parts of the outside world `_execute_single_file` consults:
which paths `Path(...).exists()` reports, and the text `open(...).read()`
returns per query-file path. -/
structure World where
  existingPaths : List String
  files : List (String × String)
deriving Repr, DecidableEq

def lookupFile (w : World) (p : String) : Option String :=
  (w.files.find? (fun kv => kv.1 == p)).map (fun kv => kv.2)

/-! ## ParameterSubstitution — core.py:393-396 and 408-423 -/

/-- One pass of `for key, value in ps: text = text.replace("{key}", value)`
as in core.py:412-413 and 416-417 (braces around the key). -/
def substParams (text : String) (ps : List (String × String)) : String :=
  ps.foldl (fun t kv => pyReplace t ("\x7b" ++ kv.1 ++ "\x7d") kv.2) text

/-- core.py:409-417: substitute the file config's own params first, then
the caller's parameters, into the query text. -/
def mergeSubstitute (content : String) (configParams overrideParams : List (String × String)) : String :=
  substParams (substParams content configParams) overrideParams

/-- Truthiness of the `parameters` argument (`if parameters:`): `None` and
the empty dict are falsy. -/
def paramsTruthy : Option (List (String × String)) → Bool
  | none => false
  | some ps => !ps.isEmpty

/-- core.py:393-396: the output path used for the existence check — only
the caller's `parameters` are substituted into it, and only when truthy. -/
def outputPathForCheck (parameters : Option (List (String × String))) (op : String) : String :=
  if paramsTruthy parameters then substParams op (parameters.getD []) else op

/-- core.py:408-423 as one step: the statement text and the (possibly
rewritten) `config['output_file']` after the parameter block.  When
`parameters` is falsy the whole block is skipped and both are returned
verbatim. -/
def resolvedInputs (config : FileConfig) (content : String)
    (parameters : Option (List (String × String))) : String × Option String :=
  (if paramsTruthy parameters then
     mergeSubstitute content config.params (parameters.getD [])
   else content,
   config.outputFile.map (fun op =>
     if paramsTruthy parameters then substParams op (parameters.getD []) else op))

/-! ## Oracle statement execution — `_execute_oracle_file_statements`,
core.py:452-486.

One *attempt* runs the closure `_execute_statements` in the thread pool
under `asyncio.timeout`.  How an attempt resolves is an input of the model:
it completes, times out after some number of statements were executed, or a
statement raises a database error after some earlier ones ran. -/

inductive OAttempt
  | done
  | timeout (executed : Nat)
  | fails (executed : Nat) (e : QMError)
deriving Repr, DecidableEq

/-- What a statement returns when executed: `some df` when
`cursor.description` is set (row-returning), `none` otherwise. -/
def nonBlankStatements (statements : List String) : List String :=
  statements.filter (fun s => !(pyStrip s == ""))

/-- The `for stmt in statements` loop inside `_execute_statements`
(core.py:465-471).  The accumulator is the *local* variable `last_result`
of the closure: Python's scoping makes every assignment in the loop target
a local that starts out unbound, which we model as `Option DF` starting at
`none` — the outer `last_result = pd.DataFrame()` at core.py:460 is
shadowed and never read. -/
def oracleStatementsLoop (stmtResult : String → Option DF) :
    List String → Option DF → Option DF × List Effect
  | [], last => (last, [])
  | stmt :: rest, last =>
      if pyStrip stmt == "" then oracleStatementsLoop stmtResult rest last
      else
        let last' := match stmtResult stmt with
          | some df => some df
          | none => last
        let r := oracleStatementsLoop stmtResult rest last'
        (r.1, Effect.execStmt stmt :: r.2)

/-- A full run of `_execute_statements`: open one connection (`with
get_connection()`), run the loop, close the connection; `return
last_result` raises `UnboundLocalError` when no statement assigned it. -/
def oracleExecStatements (stmtResult : String → Option DF) (statements : List String) :
    Except QMError DF × List Effect :=
  let l := oracleStatementsLoop stmtResult statements none
  let tr := Effect.acquireConn :: l.2 ++ [Effect.releaseConn]
  match l.1 with
  | some df => (Except.ok df, tr)
  | none => (Except.error (QMError.unboundLocal "last_result"), tr)

/-- Trace of an attempt abandoned by `asyncio.timeout` after `k` of the
non-blank statements were executed on its own fresh connection. -/
def oracleTimeoutTrace (statements : List String) (k : Nat) : List Effect :=
  Effect.acquireConn :: ((nonBlankStatements statements).take k).map Effect.execStmt

/-- Trace of an attempt whose statement raised after `k` non-blank
statements ran; the `with` block closes the connection before the error
propagates. -/
def oracleFailTrace (statements : List String) (k : Nat) : List Effect :=
  Effect.acquireConn :: ((nonBlankStatements statements).take k).map Effect.execStmt
    ++ [Effect.releaseConn]

/-- The `while retry_count < max_retries` loop of
`_execute_oracle_file_statements` (core.py:474-486), for `max_retries ≥ 1`:
`r` is the number of retries still allowed after the current attempt
(initially `max_retries - 1`), `i` the 0-based attempt index.  Only
`asyncio.TimeoutError` is caught; on the last allowed attempt it is
re-raised.  Returns the result, the concatenated effect trace, and the
number of attempts performed. -/
def oracleRetryGo (plan : Nat → OAttempt) (stmtResult : String → Option DF)
    (statements : List String) : Nat → Nat → Except QMError DF × List Effect × Nat
  | r, i =>
      match plan i with
      | OAttempt.done =>
          let e := oracleExecStatements stmtResult statements
          (e.1, e.2, 1)
      | OAttempt.fails k err => (Except.error err, oracleFailTrace statements k, 1)
      | OAttempt.timeout k =>
          let tr := oracleTimeoutTrace statements k
          match r with
          | 0 => (Except.error QMError.timeoutErr, tr, 1)
          | r' + 1 =>
              let rest := oracleRetryGo plan stmtResult statements r' (i + 1)
              (rest.1,
               tr ++ Effect.logWarning "Execution timed out, retrying" :: rest.2.1,
               rest.2.2 + 1)

/-- Model of `_execute_oracle_file_statements` with its default `max_retries = 3`
(the only way core.py calls it). -/
def oracleFileStatements (plan : Nat → OAttempt) (stmtResult : String → Option DF)
    (statements : List String) : Except QMError DF × List Effect :=
  let r := oracleRetryGo plan stmtResult statements 2 0
  (r.1, r.2.1)

/-! ## Postgres statement execution — `_execute_postgres_file_statements`,
core.py:488-516.  One connection is held for the whole loop; each statement
has its own `while retry_count < max_retries` retry loop around
`conn.fetch` under `asyncio.timeout`. -/

/-- How one `conn.fetch(stmt)` attempt resolves: a truthy row list, an
empty (falsy) result, a non-timeout database error, or a timeout. -/
inductive PAttempt
  | rows (df : DF)
  | noRows
  | fails (e : QMError)
  | timeout
deriving Repr, DecidableEq

/-- The inner retry loop for one statement (core.py:501-514), for
`max_retries ≥ 1`: `r` is the number of retries still allowed after the
current attempt (initially `max_retries - 1`), `j` the 0-based attempt
index.  `Except.ok (some df)` means `last_result` was reassigned,
`Except.ok none` means the statement returned no rows (`break` without
assignment).  Returns result, trace, attempts performed. -/
def pgStatementRetryGo (attempt : Nat → PAttempt) (stmt : String) :
    Nat → Nat → Except QMError (Option DF) × List Effect × Nat
  | r, j =>
      match attempt j with
      | PAttempt.rows df => (Except.ok (some df), [Effect.execStmt stmt], 1)
      | PAttempt.noRows => (Except.ok none, [Effect.execStmt stmt], 1)
      | PAttempt.fails e => (Except.error e, [Effect.execStmt stmt], 1)
      | PAttempt.timeout =>
          match r with
          | 0 => (Except.error QMError.timeoutErr, [Effect.execStmt stmt], 1)
          | r' + 1 =>
              let rest := pgStatementRetryGo attempt stmt r' (j + 1)
              (rest.1,
               Effect.execStmt stmt :: Effect.logWarning "Statement timed out, retrying" :: rest.2.1,
               rest.2.2 + 1)

/-- The `for stmt in statements` loop (core.py:499-514): `plan i j` is how
attempt `j` of the statement at raw index `i` resolves; blank statements
are skipped without an attempt; a raised error aborts the remaining
statements. -/
def pgStatementsLoop (plan : Nat → Nat → PAttempt) :
    List String → Nat → DF → Except QMError DF × List Effect
  | [], _, last => (Except.ok last, [])
  | stmt :: rest, i, last =>
      if pyStrip stmt == "" then pgStatementsLoop plan rest (i + 1) last
      else
        let r := pgStatementRetryGo (plan i) stmt 2 0
        match r.1 with
        | Except.error e => (Except.error e, r.2.1)
        | Except.ok upd =>
            let res := pgStatementsLoop plan rest (i + 1) (upd.getD last)
            (res.1, r.2.1 ++ res.2)

/-- Model of `_execute_postgres_file_statements` with its default `max_retries = 3`:
`last_result` starts as `pd.DataFrame()`; the single `async with`
connection is released on success and on error alike. -/
def pgFileStatements (plan : Nat → Nat → PAttempt) (statements : List String) :
    Except QMError DF × List Effect :=
  let b := pgStatementsLoop plan statements 0 DF.empty
  (b.1, Effect.acquireConn :: b.2 ++ [Effect.releaseConn])

/-! ## FileExecutor — `_execute_single_file`, core.py:377-450 -/

/-- The body of the `try` block of `_execute_single_file`, in source
order: output-format validation from the configured path's extension,
override-params-only substitution into the checked path, the existence
check and skip, the query-file read, the parameter block
(`resolvedInputs`), the split, the backend statement run, and the save.
`isOracle` selects the backend branch of core.py:430-433; `mkdir` has no
observable effect we track. -/
def executeSingleFileCore (w : World) (isOracle : Bool)
    (oPlan : Nat → OAttempt) (pPlan : Nat → Nat → PAttempt)
    (stmtResult : String → Option DF)
    (config : FileConfig) (parameters : Option (List (String × String))) :
    Except QMError DF × List Effect :=
  let fmtCheck : Except QMError Unit :=
    match config.outputFile with
    | some op0 =>
        let fmt := outputFormatOf op0
        if fmt = "csv" ∨ fmt = "parquet" then Except.ok ()
        else Except.error (QMError.valueErr ("Unsupported output format: " ++ fmt))
    | none => Except.ok ()
  match fmtCheck with
  | Except.error e => (Except.error e, [])
  | Except.ok _ =>
    let skip : Option String :=
      match config.outputFile with
      | some op0 =>
          let cp := outputPathForCheck parameters op0
          if w.existingPaths.contains cp then some cp else none
      | none => none
    match skip with
    | some cp =>
        (Except.ok DF.empty,
         [Effect.logInfo ("Output file " ++ cp ++ " already exists, skipping execution")])
    | none =>
      match lookupFile w config.queryFile with
      | none => (Except.error (QMError.fileNotFound config.queryFile),
                 [Effect.readFile config.queryFile])
      | some content0 =>
        let resolved := resolvedInputs config content0 parameters
        let statements := splitSqlStatements resolved.1
        let r := if isOracle then oracleFileStatements oPlan stmtResult statements
                 else pgFileStatements pPlan statements
        match r.1 with
        | Except.error e => (Except.error e, Effect.readFile config.queryFile :: r.2)
        | Except.ok df =>
          match resolved.2 with
          | some op =>
              let fmt := outputFormatOf op
              if fmt = "csv" ∨ fmt = "parquet" then
                (Except.ok df,
                 Effect.readFile config.queryFile :: r.2
                   ++ [Effect.saveOutput op fmt,
                       Effect.logInfo ("Results saved to " ++ op)])
              else
                (Except.error (QMError.valueErr ("Unsupported output format: " ++ fmt)),
                 Effect.readFile config.queryFile :: r.2
                   ++ [Effect.logError ("Failed to save results to " ++ op)])
          | none => (Except.ok df, Effect.readFile config.queryFile :: r.2)

/-- Model of `_execute_single_file` with its `except` clause (core.py:448-450):
any error is logged with the originating query-file path and re-raised. -/
def executeSingleFile (w : World) (isOracle : Bool)
    (oPlan : Nat → OAttempt) (pPlan : Nat → Nat → PAttempt)
    (stmtResult : String → Option DF)
    (config : FileConfig) (parameters : Option (List (String × String))) :
    Except QMError DF × List Effect :=
  let r := executeSingleFileCore w isOracle oPlan pPlan stmtResult config parameters
  match r.1 with
  | Except.error e =>
      (Except.error e, r.2 ++ [Effect.logError ("Error executing " ++ config.queryFile)])
  | Except.ok _ => r

/-! ## BatchDispatcher — `execute_multiple_files`, core.py:334-367 -/

/-- The result-processing loop of `execute_multiple_files` (core.py:358-366)
over the outcomes `asyncio.gather(..., return_exceptions=True)` collected:
an exception slot is logged with `configs[i]['query_file']` and becomes
`pd.DataFrame()`, an ordinary slot passes through. -/
def processBatchResults : List (FileConfig × Except QMError DF) → List DF × List Effect
  | [] => ([], [])
  | (c, Except.error _) :: rest =>
      let r := processBatchResults rest
      (DF.empty :: r.1, Effect.logError ("Error executing " ++ c.queryFile) :: r.2)
  | (_, Except.ok df) :: rest =>
      let r := processBatchResults rest
      (df :: r.1, r.2)

/-- Model of `execute_multiple_files`: one task per config (the semaphore bounds
concurrency but does not change per-task outcomes), gathered with
`return_exceptions=True`, then processed.  `runFile` maps a config to its
task's outcome; `executeSingleFile` applied to a fixed world and attempt
plans is such a function. -/
def executeMultipleFiles (runFile : FileConfig → Except QMError DF)
    (configs : List FileConfig) : List DF × List Effect :=
  processBatchResults (configs.map (fun c => (c, runFile c)))

/-! ## Claim-side reference definition (refinement comparison for C3) -/

/-- Effective output path following the spec's words for `FileExecutor`
step 1 — "substituting the merged parameters (override params over the
file config's own params) into the template" — to be compared with the
code's `outputPathForCheck`. -/
def effectiveOutputPathSpec (config : FileConfig)
    (parameters : Option (List (String × String))) (op : String) : String :=
  substParams op (config.params ++ parameters.getD [])

/-! ## Helper lemmas -/

theorem pg_retry_no_acquire (attempt : Nat → PAttempt) (stmt : String) :
    ∀ (r j : Nat), Effect.acquireConn ∉ (pgStatementRetryGo attempt stmt r j).2.1 := by
  intro r
  induction r with
  | zero =>
      intro j
      cases h : attempt j <;> simp [pgStatementRetryGo, h]
  | succ r ih =>
      intro j
      cases h : attempt j <;> simp [pgStatementRetryGo, h, ih (j + 1)]

theorem pg_loop_no_acquire (plan : Nat → Nat → PAttempt) :
    ∀ (stmts : List String) (i : Nat) (last : DF),
      Effect.acquireConn ∉ (pgStatementsLoop plan stmts i last).2 := by
  intro stmts
  induction stmts with
  | nil =>
      intro i last
      simp [pgStatementsLoop]
  | cons s rest ih =>
      intro i last
      simp only [pgStatementsLoop]
      split
      · exact ih (i + 1) last
      · split
        · exact pg_retry_no_acquire (plan i) s 2 0
        · simp only [List.mem_append, not_or]
          exact ⟨pg_retry_no_acquire (plan i) s 2 0, ih (i + 1) _⟩

theorem oracle_loop_no_acquire (sR : String → Option DF) :
    ∀ (stmts : List String) (last : Option DF),
      Effect.acquireConn ∉ (oracleStatementsLoop sR stmts last).2 := by
  intro stmts
  induction stmts with
  | nil =>
      intro last
      simp [oracleStatementsLoop]
  | cons s rest ih =>
      intro last
      simp only [oracleStatementsLoop]
      split
      · exact ih last
      · simp [ih]

theorem pg_loop_noRows_trace :
    ∀ (stmts : List String) (i : Nat) (last : DF),
      pgStatementsLoop (fun _ _ => PAttempt.noRows) stmts i last
        = (Except.ok last, (nonBlankStatements stmts).map Effect.execStmt) := by
  intro stmts
  induction stmts with
  | nil =>
      intro i last
      simp [pgStatementsLoop, nonBlankStatements]
  | cons s rest ih =>
      intro i last
      by_cases hb : (pyStrip s == "") = true
      · simp [pgStatementsLoop, hb, nonBlankStatements, List.filter_cons, ih (i + 1) last]
      · simp [pgStatementsLoop, hb, pgStatementRetryGo, nonBlankStatements,
          List.filter_cons, ih (i + 1) last]

theorem oracleExecStatements_trace (sR : String → Option DF) (stmts : List String) :
    (oracleExecStatements sR stmts).2
      = Effect.acquireConn :: (oracleStatementsLoop sR stmts none).2 ++ [Effect.releaseConn] := by
  cases h : (oracleStatementsLoop sR stmts none).1 <;> simp [oracleExecStatements, h]

theorem count_acquire_take_exec (l : List String) (k : Nat) :
    List.count Effect.acquireConn (List.take k (l.map Effect.execStmt)) = 0 := by
  refine List.count_eq_zero.mpr (fun h => ?_)
  rcases List.mem_map.mp (List.take_subset k _ h) with ⟨x, _, hx⟩
  exact Effect.noConfusion hx

/-! ## Claims -/

/-- C1 (code_bug): file-config params are substituted into the statement
text *before* the caller's override params (core.py:410-417), so a shared
key's placeholder is consumed by the file-config value and the override
can never win, contrary to the claim and to the code's own comment.  At
the claim's example input the dispatched statement carries the
file-config value `2024-01-01`, not the override value `2024-02-02`. -/
theorem override_loses_on_shared_key :
    mergeSubstitute "WHERE d = '\x7bdt\x7d'" [("dt", "2024-01-01")] [("dt", "2024-02-02")]
        = "WHERE d = '2024-01-01'"
  ∧ mergeSubstitute "WHERE d = '\x7bdt\x7d'" [("dt", "2024-01-01")] [("dt", "2024-02-02")]
        ≠ "WHERE d = '2024-02-02'"
  ∧ ((executeSingleFile ⟨[], [("q.sql", "WHERE d = '\x7bdt\x7d'")]⟩ false
        (fun _ => OAttempt.done) (fun _ _ => PAttempt.noRows) (fun _ => none)
        ⟨"q.sql", none, [("dt", "2024-01-01")]⟩ (some [("dt", "2024-02-02")])).2.count
      (Effect.execStmt "WHERE d = '2024-01-01'")) = 1
  ∧ ((executeSingleFile ⟨[], [("q.sql", "WHERE d = '\x7bdt\x7d'")]⟩ false
        (fun _ => OAttempt.done) (fun _ _ => PAttempt.noRows) (fun _ => none)
        ⟨"q.sql", none, [("dt", "2024-01-01")]⟩ (some [("dt", "2024-02-02")])).2.count
      (Effect.execStmt "WHERE d = '2024-02-02'")) = 0 := by
  refine ⟨by decide, by decide, by decide, by decide⟩

/-- C5 counterexample: the splitter is line-oriented, so the one-line
input of the claim yields a single statement, not two. -/
theorem split_single_line_cex :
    splitSqlStatements "SELECT 1; SELECT 2;" ≠ ["SELECT 1", "SELECT 2"] := by decide

/-- C5 (corrected): statements are terminated only at line ends.  With
each statement on its own line the split yields the two claimed
statements in order; the claim's one-line input yields the single
statement containing both. -/
theorem split_line_oriented :
    splitSqlStatements "SELECT 1;\nSELECT 2;" = ["SELECT 1", "SELECT 2"]
  ∧ splitSqlStatements "SELECT 1; SELECT 2;" = ["SELECT 1; SELECT 2"] := by
  refine ⟨by decide, by decide⟩

/-- C8 (code_bug): on the Oracle path a query file with zero statements
(here: a comment-only file) makes the closure `_execute_statements` reach
`return last_result` with `last_result` never assigned — the outer
initialization at core.py:460 is shadowed — raising `UnboundLocalError`
instead of the claimed warning-plus-empty-result; the file-level `except`
then logs and re-raises.  The Postgres path returns the empty result (but
logs no warning). -/
theorem oracle_empty_statements_unbound_local :
    executeSingleFile ⟨[], [("q.sql", "-- comment only\n")]⟩ true (fun _ => OAttempt.done)
        (fun _ _ => PAttempt.noRows) (fun _ => none) ⟨"q.sql", none, []⟩ none
      = (Except.error (QMError.unboundLocal "last_result"),
         [Effect.readFile "q.sql", Effect.acquireConn, Effect.releaseConn,
          Effect.logError "Error executing q.sql"])
  ∧ executeSingleFile ⟨[], [("q.sql", "-- comment only\n")]⟩ false (fun _ => OAttempt.done)
        (fun _ _ => PAttempt.noRows) (fun _ => none) ⟨"q.sql", none, []⟩ none
      = (Except.ok DF.empty,
         [Effect.readFile "q.sql", Effect.acquireConn, Effect.releaseConn]) := by
  refine ⟨rfl, rfl⟩

/-- C9 (code_bug): a `.json` output path is rejected by the format check
at core.py:390 (`not in \x7b'csv', 'parquet'\x7d`) with a `ValueError`,
although the class docstring (core.py:34-37) and the claim list json as a
supported output format; `save_output_chunked` likewise only handles csv
and parquet. -/
theorem json_output_format_rejected :
    executeSingleFile ⟨[], [("q.sql", "SELECT 1;")]⟩ false (fun _ => OAttempt.done)
        (fun _ _ => PAttempt.noRows) (fun _ => none) ⟨"q.sql", some "result.json", []⟩ none
      = (Except.error (QMError.valueErr "Unsupported output format: json"),
         [Effect.logError "Error executing q.sql"]) := rfl

/-- C4 (confirmed): both retry loops (Oracle, core.py:474-486; Postgres,
core.py:501-514) with their default `max_retries = 3` perform exactly 3
attempts against an always-timing-out action and then raise the timeout;
an action that succeeds on attempt 2 returns that attempt's result with no
third attempt; a non-timeout failure propagates on its first occurrence
with exactly one attempt. -/
theorem retry_policy_three_attempts :
    ∀ (sR : String → Option DF) (stmts : List String) (f : Nat → Nat) (k : Nat)
      (e : QMError) (df : DF),
      (oracleRetryGo (fun n => OAttempt.timeout (f n)) sR stmts 2 0).2.2 = 3
    ∧ (oracleRetryGo (fun n => OAttempt.timeout (f n)) sR stmts 2 0).1
        = Except.error QMError.timeoutErr
    ∧ (oracleRetryGo (fun n => if n = 0 then OAttempt.timeout k else OAttempt.done) sR stmts 2 0).1
        = (oracleExecStatements sR stmts).1
    ∧ (oracleRetryGo (fun n => if n = 0 then OAttempt.timeout k else OAttempt.done) sR stmts 2 0).2.2
        = 2
    ∧ (oracleRetryGo (fun _ => OAttempt.fails k e) sR stmts 2 0).1 = Except.error e
    ∧ (oracleRetryGo (fun _ => OAttempt.fails k e) sR stmts 2 0).2.2 = 1
    ∧ (pgStatementRetryGo (fun _ => PAttempt.timeout) "stmt" 2 0).1
        = Except.error QMError.timeoutErr
    ∧ (pgStatementRetryGo (fun _ => PAttempt.timeout) "stmt" 2 0).2.2 = 3
    ∧ (pgStatementRetryGo (fun j => if j = 0 then PAttempt.timeout else PAttempt.rows df) "stmt" 2 0).1
        = Except.ok (some df)
    ∧ (pgStatementRetryGo (fun j => if j = 0 then PAttempt.timeout else PAttempt.rows df) "stmt" 2 0).2.2
        = 2
    ∧ (pgStatementRetryGo (fun _ => PAttempt.fails e) "stmt" 2 0).1 = Except.error e
    ∧ (pgStatementRetryGo (fun _ => PAttempt.fails e) "stmt" 2 0).2.2 = 1 :=
  fun _ _ _ _ _ _ => ⟨rfl, rfl, rfl, rfl, rfl, rfl, rfl, rfl, rfl, rfl, rfl, rfl⟩

/-- C6 counterexample: on the Oracle path the retry loop wraps the whole
statement sequence, so after a timeout that had already executed the first
statement, the next attempt executes it again — the first statement runs
twice, refuting "never re-execution of earlier statements ... on both the
Oracle and the Postgres backend paths". -/
theorem oracle_retry_reexecutes_cex :
    ((oracleFileStatements (fun n => if n = 0 then OAttempt.timeout 1 else OAttempt.done)
        (fun _ => some ⟨["c"], [["1"]]⟩) ["SELECT A", "SELECT B"]).2.count
      (Effect.execStmt "SELECT A")) = 2 := by decide

/-- C6 (corrected): on the Postgres path each statement has its own
3-attempt retry loop — a timeout on the second statement retries only
that statement and the first statement runs once; on the Oracle path the
retry wraps the whole statement sequence on a fresh run, so after a
timeout the earlier statements are re-executed by the next attempt. -/
theorem per_statement_retry_postgres_only :
    ∀ (df1 df2 : DF),
      pgFileStatements
          (fun i j => if i = 0 then PAttempt.rows df1
            else if j = 0 then PAttempt.timeout else PAttempt.rows df2)
          ["SELECT A", "SELECT B"]
        = (Except.ok df2,
           [Effect.acquireConn, Effect.execStmt "SELECT A", Effect.execStmt "SELECT B",
            Effect.logWarning "Statement timed out, retrying", Effect.execStmt "SELECT B",
            Effect.releaseConn])
    ∧ oracleFileStatements (fun n => if n = 0 then OAttempt.timeout 1 else OAttempt.done)
          (fun s => if s == "SELECT A" then some df1 else some df2) ["SELECT A", "SELECT B"]
        = (Except.ok df2,
           [Effect.acquireConn, Effect.execStmt "SELECT A",
            Effect.logWarning "Execution timed out, retrying",
            Effect.acquireConn, Effect.execStmt "SELECT A", Effect.execStmt "SELECT B",
            Effect.releaseConn]) :=
  fun _ _ => ⟨rfl, rfl⟩

/-- C7 counterexample: a file execution on the Oracle path whose first
attempt times out acquires a second connection for the retry attempt,
refuting "no file execution ever acquires a second connection, on either
backend path, regardless of timeouts and retries". -/
theorem oracle_second_connection_cex :
    ((executeSingleFile ⟨[], [("q.sql", "SELECT A;")]⟩ true
        (fun n => if n = 0 then OAttempt.timeout 1 else OAttempt.done)
        (fun _ _ => PAttempt.noRows) (fun _ => some DF.empty)
        ⟨"q.sql", none, []⟩ none).2.count Effect.acquireConn) = 2 := by decide

/-- C7 (corrected): the Postgres path holds exactly one connection for the
whole statement sequence under every plan, and executes the statements in
strict file order (shown for retry-free runs); the Oracle path acquires
exactly one connection per attempt — one on a retry-free run, two when
the first attempt times out. -/
theorem one_connection_per_attempt :
    (∀ (plan : Nat → Nat → PAttempt) (stmts : List String),
       (pgFileStatements plan stmts).2.count Effect.acquireConn = 1)
  ∧ (∀ (stmts : List String),
       (pgFileStatements (fun _ _ => PAttempt.noRows) stmts).2
         = Effect.acquireConn :: (nonBlankStatements stmts).map Effect.execStmt
             ++ [Effect.releaseConn])
  ∧ (∀ (sR : String → Option DF) (stmts : List String),
       (oracleFileStatements (fun _ => OAttempt.done) sR stmts).2.count Effect.acquireConn = 1)
  ∧ (∀ (sR : String → Option DF) (stmts : List String) (k : Nat),
       (oracleFileStatements (fun n => if n = 0 then OAttempt.timeout k else OAttempt.done)
           sR stmts).2.count Effect.acquireConn = 2) := by
  refine ⟨?_, ?_, ?_, ?_⟩
  · intro plan stmts
    simp [pgFileStatements, List.count_cons, List.count_append,
      List.count_eq_zero.mpr (pg_loop_no_acquire plan stmts 0 DF.empty)]
  · intro stmts
    simp [pgFileStatements, pg_loop_noRows_trace stmts 0 DF.empty]
  · intro sR stmts
    simp [oracleFileStatements, oracleRetryGo, oracleExecStatements_trace, List.count_cons,
      List.count_append,
      List.count_eq_zero.mpr (oracle_loop_no_acquire sR stmts none)]
  · intro sR stmts k
    simp [oracleFileStatements, oracleRetryGo, oracleExecStatements_trace, oracleTimeoutTrace,
      List.count_cons, List.count_append, count_acquire_take_exec,
      List.count_eq_zero.mpr (oracle_loop_no_acquire sR stmts none)]

theorem batch_slots (runFile : FileConfig → Except QMError DF) :
    ∀ (configs : List FileConfig),
      (executeMultipleFiles runFile configs).1
        = configs.map (fun c => match runFile c with
            | Except.error _ => DF.empty
            | Except.ok df => df) := by
  intro configs
  induction configs with
  | nil => rfl
  | cons c rest ih =>
      cases h : runFile c <;>
        simpa [executeMultipleFiles, processBatchResults, h] using ih

theorem batch_logs (runFile : FileConfig → Except QMError DF) :
    ∀ (configs : List FileConfig) (c : FileConfig), c ∈ configs →
      ∀ (e : QMError), runFile c = Except.error e →
        Effect.logError ("Error executing " ++ c.queryFile)
          ∈ (executeMultipleFiles runFile configs).2 := by
  intro configs
  induction configs with
  | nil =>
      intro c hc
      exact absurd hc (List.not_mem_nil c)
  | cons c0 rest ih =>
      intro c hc e he
      rcases List.mem_cons.mp hc with h | h
      · subst h
        simp [executeMultipleFiles, processBatchResults, he]
      · have hrest := ih c h e he
        cases h0 : runFile c0 <;>
          simp only [executeMultipleFiles, List.map_cons, processBatchResults, h0] at hrest ⊢ <;>
          simp [hrest]

/-- C2 (confirmed): `execute_multiple_files` gathers the per-config task
outcomes with `return_exceptions=True` and post-processes them: the result
list is aligned index-for-index with the configs (an exception slot
becomes `pd.DataFrame()`, an ordinary slot passes through unchanged and
unaffected by its siblings), no exception is re-raised, and every failing
slot is logged with its originating `query_file` path. -/
theorem batch_isolates_failures :
    ∀ (runFile : FileConfig → Except QMError DF) (configs : List FileConfig),
      (executeMultipleFiles runFile configs).1
        = configs.map (fun c => match runFile c with
            | Except.error _ => DF.empty
            | Except.ok df => df)
    ∧ ∀ (c : FileConfig), c ∈ configs → ∀ (e : QMError), runFile c = Except.error e →
        Effect.logError ("Error executing " ++ c.queryFile)
          ∈ (executeMultipleFiles runFile configs).2 :=
  fun runFile configs => ⟨batch_slots runFile configs, batch_logs runFile configs⟩

/-- Witness for C2: a two-file batch through `executeSingleFile` where the
second file is missing — its slot degrades to the empty result while the
first slot keeps its rows, and the failure is logged with its path. -/
theorem batch_isolates_failures_witness :
    (executeMultipleFiles
        (fun c => (executeSingleFile ⟨[], [("good.sql", "SELECT 1;")]⟩ false
          (fun _ => OAttempt.done) (fun _ _ => PAttempt.rows ⟨["x"], [["1"]]⟩)
          (fun _ => none) c none).1)
        [⟨"good.sql", none, []⟩, ⟨"bad.sql", none, []⟩]).1
      = [⟨["x"], [["1"]]⟩, DF.empty]
  ∧ Effect.logError "Error executing bad.sql" ∈
      (executeMultipleFiles
        (fun c => (executeSingleFile ⟨[], [("good.sql", "SELECT 1;")]⟩ false
          (fun _ => OAttempt.done) (fun _ _ => PAttempt.rows ⟨["x"], [["1"]]⟩)
          (fun _ => none) c none).1)
        [⟨"good.sql", none, []⟩, ⟨"bad.sql", none, []⟩]).2 := by
  have h := batch_isolates_failures
    (fun c => (executeSingleFile ⟨[], [("good.sql", "SELECT 1;")]⟩ false
      (fun _ => OAttempt.done) (fun _ _ => PAttempt.rows ⟨["x"], [["1"]]⟩)
      (fun _ => none) c none).1)
    [⟨"good.sql", none, []⟩, ⟨"bad.sql", none, []⟩]
  exact ⟨h.1.trans (by decide),
    h.2 ⟨"bad.sql", none, []⟩ (by decide) (QMError.fileNotFound "bad.sql") rfl⟩

/-- C3 counterexample: with file-config params mapping `a` to `X` and
override params mapping `b` to `Y`, the path the code checks for
existence substitutes only the override params, so the merged-params path
(which does exist in the world) is never checked and the file proceeds to
read the query file and open a connection — refuting the claim's
"substituting the merged parameters ... if that path already exists it
returns an empty result having performed zero reads ... and zero
connection acquisitions". -/
theorem skip_check_ignores_config_params_cex :
    effectiveOutputPathSpec ⟨"q.sql", some "out_\x7ba\x7d_\x7bb\x7d.csv", [("a", "X")]⟩
        (some [("b", "Y")]) "out_\x7ba\x7d_\x7bb\x7d.csv" = "out_X_Y.csv"
  ∧ outputPathForCheck (some [("b", "Y")]) "out_\x7ba\x7d_\x7bb\x7d.csv" = "out_\x7ba\x7d_Y.csv"
  ∧ (World.mk ["out_X_Y.csv"] [("q.sql", "SELECT 1;")]).existingPaths.contains "out_X_Y.csv"
      = true
  ∧ Effect.readFile "q.sql" ∈
      (executeSingleFile ⟨["out_X_Y.csv"], [("q.sql", "SELECT 1;")]⟩ false
        (fun _ => OAttempt.done) (fun _ _ => PAttempt.noRows) (fun _ => none)
        ⟨"q.sql", some "out_\x7ba\x7d_\x7bb\x7d.csv", [("a", "X")]⟩ (some [("b", "Y")])).2
  ∧ Effect.acquireConn ∈
      (executeSingleFile ⟨["out_X_Y.csv"], [("q.sql", "SELECT 1;")]⟩ false
        (fun _ => OAttempt.done) (fun _ _ => PAttempt.noRows) (fun _ => none)
        ⟨"q.sql", some "out_\x7ba\x7d_\x7bb\x7d.csv", [("a", "X")]⟩ (some [("b", "Y")])).2 := by
  refine ⟨by decide, by decide, by decide, by decide, by decide⟩

/-- C3 (corrected): the path checked for existence substitutes only the
caller's override params (when truthy) into the template — the file
config's own params are never applied to it; when that checked path
exists, the file returns the empty result having performed zero query-file
reads and zero connection acquisitions. -/
theorem skip_existing_output_no_io :
    ∀ (w : World) (b : Bool) (oP : Nat → OAttempt) (pP : Nat → Nat → PAttempt)
      (sR : String → Option DF) (qf op : String) (cps : List (String × String))
      (parameters : Option (List (String × String))),
      (outputFormatOf op = "csv" ∨ outputFormatOf op = "parquet") →
      w.existingPaths.contains (outputPathForCheck parameters op) = true →
      executeSingleFile w b oP pP sR ⟨qf, some op, cps⟩ parameters
        = (Except.ok DF.empty,
           [Effect.logInfo ("Output file " ++ outputPathForCheck parameters op
              ++ " already exists, skipping execution")])
    ∧ (∀ (p : String), Effect.readFile p
        ∉ (executeSingleFile w b oP pP sR ⟨qf, some op, cps⟩ parameters).2)
    ∧ Effect.acquireConn ∉ (executeSingleFile w b oP pP sR ⟨qf, some op, cps⟩ parameters).2 := by
  intro w b oP pP sR qf op cps parameters hfmt hex
  have hmain : executeSingleFile w b oP pP sR ⟨qf, some op, cps⟩ parameters
      = (Except.ok DF.empty,
         [Effect.logInfo ("Output file " ++ outputPathForCheck parameters op
            ++ " already exists, skipping execution")]) := by
    have hex' : outputPathForCheck parameters op ∈ w.existingPaths := by
      simpa using hex
    simp [executeSingleFile, executeSingleFileCore, eq_true hfmt, hex']
  refine ⟨hmain, fun p => ?_, ?_⟩ <;> rw [hmain] <;> simp

/-- Witness for C3: a config whose `out.csv` already exists is skipped
with only the log entry — no read, no connection. -/
theorem skip_existing_output_no_io_witness :
    executeSingleFile ⟨["out.csv"], []⟩ false (fun _ => OAttempt.done)
        (fun _ _ => PAttempt.noRows) (fun _ => none) ⟨"q.sql", some "out.csv", []⟩ none
      = (Except.ok DF.empty,
         [Effect.logInfo "Output file out.csv already exists, skipping execution"])
  ∧ (∀ (p : String), Effect.readFile p
      ∉ (executeSingleFile ⟨["out.csv"], []⟩ false (fun _ => OAttempt.done)
          (fun _ _ => PAttempt.noRows) (fun _ => none) ⟨"q.sql", some "out.csv", []⟩ none).2)
  ∧ Effect.acquireConn
      ∉ (executeSingleFile ⟨["out.csv"], []⟩ false (fun _ => OAttempt.done)
          (fun _ _ => PAttempt.noRows) (fun _ => none) ⟨"q.sql", some "out.csv", []⟩ none).2 := by
  have h := skip_existing_output_no_io ⟨["out.csv"], []⟩ false (fun _ => OAttempt.done)
      (fun _ _ => PAttempt.noRows) (fun _ => none) "q.sql" "out.csv" [] none
      (Or.inl (by decide)) (by decide)
  exact ⟨h.1.trans rfl, h.2.1, h.2.2⟩

/-- C10 (confirmed): when the caller's `parameters` argument is `None` or
the empty dict, the whole substitution block is skipped — the statement
text and the output path keep every placeholder verbatim, the path used
for the existence check is the raw template, and the file config's own
params map has no influence on the execution at all. -/
theorem no_override_no_substitution :
    ∀ (config : FileConfig) (content op : String)
      (p : Option (List (String × String))),
      p = none ∨ p = some [] →
      resolvedInputs config content p = (content, config.outputFile)
    ∧ outputPathForCheck p op = op
    ∧ ∀ (w : World) (b : Bool) (oP : Nat → OAttempt) (pP : Nat → Nat → PAttempt)
        (sR : String → Option DF) (qf : String) (outp : Option String)
        (cps cps' : List (String × String)),
        executeSingleFile w b oP pP sR ⟨qf, outp, cps⟩ p
          = executeSingleFile w b oP pP sR ⟨qf, outp, cps'⟩ p := by
  intro config content op p hp
  have hf : paramsTruthy p = false := by
    rcases hp with h | h <;> subst h <;> rfl
  refine ⟨?_, ?_, ?_⟩
  · simp [resolvedInputs, hf]
  · simp [outputPathForCheck, hf]
  · intro w b oP pP sR qf outp cps cps'
    rcases hp with h | h <;> subst h <;> rfl

/-- Witness for C10: with `parameters = None`, a statement and an output
path containing the placeholder for the file config's own `dt` param pass
through verbatim, and swapping the config's params map does not change the
execution. -/
theorem no_override_no_substitution_witness :
    resolvedInputs ⟨"q.sql", some "out_\x7bdt\x7d.csv", [("dt", "2024-01-01")]⟩
        "SELECT '\x7bdt\x7d';" none
      = ("SELECT '\x7bdt\x7d';", some "out_\x7bdt\x7d.csv")
  ∧ outputPathForCheck none "out_\x7bdt\x7d.csv" = "out_\x7bdt\x7d.csv"
  ∧ executeSingleFile ⟨[], [("q.sql", "SELECT '\x7bdt\x7d';")]⟩ false (fun _ => OAttempt.done)
        (fun _ _ => PAttempt.noRows) (fun _ => none)
        ⟨"q.sql", none, [("dt", "2024-01-01")]⟩ none
      = executeSingleFile ⟨[], [("q.sql", "SELECT '\x7bdt\x7d';")]⟩ false (fun _ => OAttempt.done)
        (fun _ _ => PAttempt.noRows) (fun _ => none) ⟨"q.sql", none, []⟩ none := by
  have h := no_override_no_substitution
    ⟨"q.sql", some "out_\x7bdt\x7d.csv", [("dt", "2024-01-01")]⟩
    "SELECT '\x7bdt\x7d';" "out_\x7bdt\x7d.csv" none (Or.inl rfl)
  exact ⟨h.1, h.2.1,
    h.2.2 ⟨[], [("q.sql", "SELECT '\x7bdt\x7d';")]⟩ false (fun _ => OAttempt.done)
      (fun _ _ => PAttempt.noRows) (fun _ => none) "q.sql" none [("dt", "2024-01-01")] []⟩

end QueryMaster
